import Mathlib

/-!
Verification of the logiPy repository (logiledpy package: `color.py`, `led.py`)
against its natural-language specification.

The package targets Python 3 (`led.py` uses f-strings, `pathlib`, `enum.auto`),
so all embedded semantics below are Python-3 semantics.  Fallible Python code is
embedded as `Except PyError _`; an `Except.error` value models an exception
propagating out of the call.
-/

/-- Python exceptions raised by the embedded code paths. -/
inductive PyError where
  /-- `AttributeError`: attribute lookup failed on an object (`obj` names the
      object or type, `attr` the missing attribute). -/
  | attributeError (obj attr : String)
  /-- `KeyError` (a `LookupError`): mapping lookup failed for `key`. -/
  | keyError (key : String)
  /-- `struct.error` from `struct.pack` on an out-of-range value. -/
  | structError
  deriving DecidableEq, Repr

/-- Coarse classification of a `PyError`, used to state claims that speak about
the *kind* of error raised.  In Python, `KeyError` is a `LookupError`, while
`AttributeError` is not. -/
inductive ErrKind where
  | attribute
  | lookup
  | structPack
  deriving DecidableEq, Repr

def PyError.kind : PyError → ErrKind
  | .attributeError _ _ => .attribute
  | .keyError _ => .lookup
  | .structError => .structPack

/-- The kind of exception a fallible computation raised, if it raised one. -/
def raisedKind {α : Type} (r : Except PyError α) : Option ErrKind :=
  match r with
  | .error e => some e.kind
  | .ok _ => none

instance {ε α : Type} [DecidableEq ε] [DecidableEq α] : DecidableEq (Except ε α) := fun a b =>
  match a, b with
  | .ok x, .ok y =>
      if h : x = y then isTrue (by rw [h]) else isFalse (by intro hc; cases hc; exact h rfl)
  | .error x, .error y =>
      if h : x = y then isTrue (by rw [h]) else isFalse (by intro hc; cases hc; exact h rfl)
  | .ok _, .error _ => isFalse (by intro hc; cases hc)
  | .error _, .ok _ => isFalse (by intro hc; cases hc)

/-! ## Color (`color.py`)

`Color.__init__` (color.py lines 7-61).  The attribute-level state a fully
constructed `Color` would carry: -/

structure ColorState where
  red : Int
  green : Int
  blue : Int
  alpha : Int
  hex_code : String
  deriving DecidableEq, Repr

/-- Python 3: `str` has no `decode` method, so `hex_code.decode("hex")`
(color.py line 47) raises `AttributeError` whatever the string is.  The result
type records what the legacy Python-2 call would have produced (three bytes). -/
def strDecodeHex (_s : String) : Except PyError (Int × Int × Int) :=
  Except.error (PyError.attributeError "str" "decode")

/-- `struct.pack("BBB", red, green, blue)` (color.py line 60): packs three
unsigned bytes, raising `struct.error` if any value is outside 0..255. -/
def structPackBBB (r g b : Int) : Except PyError (List Int) :=
  if 0 ≤ r ∧ r ≤ 255 ∧ 0 ≤ g ∧ g ≤ 255 ∧ 0 ≤ b ∧ b ≤ 255 then
    Except.ok [r, g, b]
  else
    Except.error PyError.structError

/-- Python 3: `bytes` has no `encode` method, so the
`struct.pack(...).encode("hex")` call building `self.hex_code`
(color.py lines 59-61) raises `AttributeError` on every construction. -/
def bytesEncodeHex (_bs : List Int) : Except PyError String :=
  Except.error (PyError.attributeError "bytes" "encode")

/-- The unconditional tail of `Color.__init__` (color.py lines 59-61): with the
channel attributes already assigned, compute `self.hex_code`.  Under Python 3
this always raises, so no `Color` value is ever produced. -/
def colorFinishInit (r g b a : Int) : Except PyError ColorState := do
  let bs ← structPackBBB r g b
  let h ← bytesEncodeHex bs
  return { red := r, green := g, blue := b, alpha := a, hex_code := "#" ++ h }

/-- The named-palette ladder of `Color.__init__` (color.py lines 18-41): the
`if/elif` chain comparing `args[0]` against the twelve color names, returning
the literal channel triple, or `none` on fallthrough (line 42). -/
def paletteLookup (s : String) : Option (Int × Int × Int) :=
  if s = "red" then some (255, 0, 0)
  else if s = "orange" then some (255, 165, 0)
  else if s = "yellow" then some (255, 255, 0)
  else if s = "green" then some (0, 255, 0)
  else if s = "blue" then some (0, 0, 255)
  else if s = "indigo" then some (75, 0, 130)
  else if s = "violet" then some (238, 130, 238)
  else if s = "cyan" then some (0, 220, 255)
  else if s = "pink" then some (255, 0, 255)
  else if s = "purple" then some (128, 0, 255)
  else if s = "white" then some (255, 255, 255)
  else if s = "black" then some (0, 0, 0)
  else none

/-- `Color(red, green, blue[, alpha])` with positional integer arguments and no
keyword arguments (color.py lines 10-14 select the channels; `hex_code` stays
`None`, so lines 45-48 are skipped; lines 54-58 assign the attributes; lines
59-61 then compute the hex view). -/
def Color.fromRGB (r g b : Int) (a : Int := 255) : Except PyError ColorState :=
  colorFinishInit r g b a

/-- `Color(s)` with a single string argument and no keyword arguments
(color.py lines 15-48).  A palette name selects its triple; any other string
becomes `hex_code` (line 43).  A non-empty `hex_code` is truthy, so line 46
strips `#` and line 47 attempts the legacy hex decode; an empty string is falsy
and falls through to the plain attribute assignment.  Either way lines 59-61
run last (on the decode path, only if the decode had succeeded). -/
def Color.fromName (s : String) : Except PyError ColorState :=
  match paletteLookup s with
  | some (r, g, b) => colorFinishInit r g b 255
  | none =>
      let hex_code := s
      if hex_code ≠ "" then do
        let stripped := hex_code.replace "#" ""
        let (r, g, b) ← strDecodeHex stripped
        colorFinishInit r g b 255
      else
        colorFinishInit 0 0 0 255

/-- `Color.rgb_percent` (color.py lines 63-68) computes
`int((channel / 255.0) * 100)` per channel.  For every integer channel value
the IEEE-754 double evaluation of `(c / 255.0) * 100` is within 1e-13 of the
exact rational `100*c/255`, whose distance to the nearest integer is either 0
or at least 1/51, and at the six exact multiples (c = 0, 51, 102, 153, 204,
255) the double result rounds to the exact integer; `int` truncates toward
zero.  Hence on this domain the expression equals truncating division, which is
what we embed. -/
def pyPct (v : Int) : Int := Int.tdiv (v * 100) 255

def ColorState.rgb_percent (c : ColorState) : Int × Int × Int :=
  (pyPct c.red, pyPct c.green, pyPct c.blue)

/-! ## LEDService (`led.py`) -/

/-- The class-level default of `LEDService.use_legacy_dll` (led.py line 51). -/
def LEDService.useLegacyDllClassDefault : Bool := true

/-- Processor architecture as reported by `platform.architecture()[0]`
(led.py line 94). -/
inductive Arch where
  | bit32
  | bit64
  deriving DecidableEq, Repr

def bitnessStr : Arch → String
  | .bit32 => "x86"
  | .bit64 => "x64"

/-- The architecture- and variant-dependent relative subpath of the DLL
(led.py lines 95-98). -/
def subpathDll (useLegacy : Bool) (arch : Arch) : String :=
  if useLegacy then "LGHUB/sdk_legacy_led_" ++ bitnessStr arch ++ ".dll"
  else "/Logitech Gaming Software/SDK/LED/" ++ bitnessStr arch ++ "/LogitechLed.dll"

/-- The two program-files environment variables consulted by `load_dll`. -/
structure WinEnv where
  programW6432 : Option String
  programFiles : Option String
  deriving DecidableEq, Repr

/-- led.py lines 101-104: `os.environ["ProgramW6432"]`, falling back to
`os.environ["ProgramFiles"]` on `KeyError`; a second `KeyError` propagates. -/
def resolveProgramFiles (env : WinEnv) : Except PyError String :=
  match env.programW6432 with
  | some v => Except.ok v
  | none =>
      match env.programFiles with
      | some v => Except.ok v
      | none => Except.error (PyError.keyError "ProgramFiles")

/-- Whether a path string is rooted (starts with a slash). -/
def isRooted (b : String) : Bool :=
  match b.data with
  | '/' :: _ => true
  | _ => false

/-- Drive prefix of a Windows path string, e.g. `"C:"`. -/
def winDrive (a : String) : String :=
  match a.data with
  | c1 :: ':' :: _ => String.mk [c1, ':']
  | _ => ""

/-- `pathlib.WindowsPath` joining (led.py line 105, `Path(subpath_lgs) /
subpath_dll`): joining onto a rooted (slash-anchored) right operand keeps only
the drive of the left operand. -/
def pathJoin (a b : String) : String :=
  if isRooted b then winDrive a ++ b else a ++ "/" ++ b

/-- The path computation of `LEDService.load_dll` (led.py lines 91-107),
parameterized by the value `self.use_legacy_dll` holds at call time.  Returns
the path that is then checked for existence and loaded. -/
def loadDllPath (selfUseLegacy : Bool) (arch : Arch) (env : WinEnv)
    (pathArg : Option String) : Except PyError String :=
  match pathArg with
  | some p => Except.ok p
  | none =>
      (resolveProgramFiles env).map fun pf =>
        pathJoin pf (subpathDll selfUseLegacy arch)

/-- The DLL path computed during `LEDService.__init__` (led.py lines 53-72).
Line 71 calls `self.load_dll(...)` BEFORE line 72 assigns
`self.use_legacy_dll = use_legacy_dll`, so at load time the attribute lookup
finds the class default `True`; the constructor argument `useLegacyArg` has no
effect on the computed path. -/
def initDllPath (useLegacyArg : Bool) (arch : Arch) (env : WinEnv)
    (pathArg : Option String) : Except PyError String :=
  loadDllPath LEDService.useLegacyDllClassDefault arch env pathArg

/-- Python truthiness of a native `int` result followed by `bool(...)`,
the return convention of every facade method. -/
def pyBool (n : Int) : Bool := n ≠ 0

/-! ### Per-key dispatch (`set_lighting_for_key`, led.py lines 227-268) -/

/-- The four members of the `KeyType` enum (led.py lines 40-44). -/
inductive KeyType where
  | scan
  | hid
  | quartz
  | name
  deriving DecidableEq, Repr

/-- The four native set-lighting entry points named in the `type_to_key` dict
(led.py lines 258-263). -/
inductive KeyEntryPoint where
  | setLightingForKeyWithScanCode
  | setLightingForKeyWithHidCode
  | setLightingForKeyWithQuartzCode
  | lightingForKeyWithKeyName
  deriving DecidableEq, Repr

/-- A value passed as the `key_type` argument: either a `KeyType` member or any
other (hashable) Python value, which the `type_to_key` dict does not contain. -/
inductive Selector where
  | known (k : KeyType)
  | other (tag : Nat)
  deriving DecidableEq, Repr

/-- The `type_to_key[key_type]` lookup guarded by `try/except KeyError`
(led.py lines 258-267): a `KeyType` member maps to its entry point, anything
else raises `KeyError`, which the handler turns into an early `False`. -/
def typeToKeyLookup : Selector → Option KeyEntryPoint
  | .known .scan => some .setLightingForKeyWithScanCode
  | .known .hid => some .setLightingForKeyWithHidCode
  | .known .quartz => some .setLightingForKeyWithQuartzCode
  | .known .name => some .lightingForKeyWithKeyName
  | .other _ => none

/-- `LEDService.set_lighting_for_key` (led.py lines 227-268) against a test
double for the native library: `stub` gives each entry point's integer return
value.  The result pairs the method's boolean return with the list of native
invocations performed (entry point and its four arguments). -/
def set_lighting_for_key (stub : KeyEntryPoint → Int → Int → Int → Int → Int)
    (key : Int) (key_type : Selector) (red green blue : Int) :
    Bool × List (KeyEntryPoint × Int × Int × Int × Int) :=
  match typeToKeyLookup key_type with
  | none => (false, [])
  | some ep => (pyBool (stub ep key red green blue), [(ep, key, red, green, blue)])

/-! ### Lifecycle and the context manager (led.py lines 74-89) -/

/-- A stub native library recording the integer results of the lifecycle entry
points. -/
structure DLLStub where
  logiLedInit : Int
  logiLedShutdown : Int
  deriving DecidableEq, Repr

/-- The service handle: the loaded library and the variant flag. -/
structure LEDServiceState where
  dll : DLLStub
  use_legacy_dll : Bool
  deriving DecidableEq, Repr

/-- `LEDService.start` (led.py lines 74-76): `bool(self.dll.LogiLedInit())`. -/
def LEDService.start (s : LEDServiceState) : Bool := pyBool s.dll.logiLedInit

/-- `LEDService.shutdown` (led.py lines 78-80):
`bool(self.dll.LogiLedShutdown())`. -/
def LEDService.shutdown (s : LEDServiceState) : Bool := pyBool s.dll.logiLedShutdown

/-- Observable events of a scope around an `LEDService`. -/
inductive Event where
  /-- The native `LogiLedInit` was invoked and returned `result`. -/
  | initCall (result : Int)
  /-- The native `LogiLedShutdown` was invoked and returned `result`. -/
  | shutdownCall (result : Int)
  /-- An operation performed by the body of the scope. -/
  | bodyOp (n : Nat)
  deriving DecidableEq, Repr

def Event.isShutdown : Event → Bool
  | .shutdownCall _ => true
  | _ => false

/-- How the body of the scope terminates. -/
inductive Outcome where
  | normal
  | earlyReturn (v : Nat)
  | raised (e : Nat)
  deriving DecidableEq, Repr

/-- `LEDService.__enter__` (led.py lines 82-85): runs `self.start()`,
discarding its boolean result, and returns `self`.  The triple returned is
(the value bound by `as`, the discarded start result, the events emitted). -/
def LEDService.enter (s : LEDServiceState) :
    LEDServiceState × Bool × List Event :=
  (s, LEDService.start s, [Event.initCall s.dll.logiLedInit])

/-- `LEDService.__exit__` (led.py lines 87-89): runs `self.shutdown()` and
returns `None` (falsy), so any in-flight exception propagates. -/
def LEDService.exitEvents (s : LEDServiceState) : List Event :=
  [Event.shutdownCall s.dll.logiLedShutdown]

/-- Python `with LEDService(...) as service: body` semantics instantiated with
`__enter__`/`__exit__` above: `__enter__` runs first, the body runs to its
outcome (normal completion, early `return`, or a raised exception), and
`__exit__` runs on every one of those exit paths; since `__exit__` returns
`None`, the body's outcome propagates unchanged. -/
def withLEDService (s : LEDServiceState) (body : List Event × Outcome) :
    List Event × Outcome :=
  ((LEDService.enter s).2.2 ++ body.1 ++ LEDService.exitEvents s, body.2)

/-! ### Configuration reads (led.py lines 430-474) -/

/-- The attributes of the `ctypes` module; `c_double` exists, `c_couble` does
not.  A lookup of a name outside this set raises `AttributeError`. -/
def ctypesAttrNames : List String :=
  ["c_int", "c_bool", "c_double", "c_wchar_p", "c_char_p", "c_uint",
   "CDLL", "cdll", "pointer", "POINTER", "create_string_buffer", "byref"]

def ctypesGetattr (attr : String) : Except PyError Unit :=
  if attr ∈ ctypesAttrNames then Except.ok ()
  else Except.error (PyError.attributeError "ctypes" attr)

/-- `LEDService.get_config_option_number` (led.py lines 430-451) against a
native stub: `success` is the integer the native call would return and
`written` the value it would leave in the output buffer.  Line 447 wraps the
key (`ctypes.c_wchar_p`); line 448 calls `ctypes.c_couble(default)` — a typo
for `c_double` — whose attribute lookup raises `AttributeError` before any
native call; lines 449-451 would return the buffer value on success and `None`
on failure. -/
def get_config_option_number (success : Int) (written : Int)
    (key : String) (defaultVal : Int) : Except PyError (Option Int) := do
  ctypesGetattr "c_wchar_p"
  ctypesGetattr "c_couble"
  if pyBool success then return (some written) else return none

/-- `LEDService.get_config_option_bool` (led.py lines 453-474) against a native
stub: wraps the key and default (lines 470-471, both attributes exist), invokes
the native call, and returns the buffer value on success, `None` on failure. -/
def get_config_option_bool (success : Int) (written : Bool)
    (key : String) (defaultVal : Bool) : Except PyError (Option Bool) := do
  ctypesGetattr "c_wchar_p"
  ctypesGetattr "c_bool"
  if pyBool success then return (some written) else return none

/-! ## Claims -/

/-- C1: the claim says every typed configuration read returns `None` when the
native call fails, and in particular `get_config_option_number` does not raise.
The code disagrees: line 448 of led.py spells `ctypes.c_couble` (a typo for
`c_double`), so `get_config_option_number` raises `AttributeError` on every
invocation, before the native call; `get_config_option_bool` does return the
absent-value marker on native failure. -/
theorem get_config_option_number_always_raises :
    (∀ (success written : Int) (key : String) (defaultVal : Int),
        get_config_option_number success written key defaultVal
          = Except.error (PyError.attributeError "ctypes" "c_couble"))
    ∧ (∀ (written : Bool) (key : String) (defaultVal : Bool),
        get_config_option_bool 0 written key defaultVal = Except.ok none) :=
  ⟨fun _ _ _ _ => rfl, fun _ _ _ => rfl⟩

/-- C2: the claim says the hex round-trip `from_hex(to_hex(c)).rgb = c.rgb`
holds with both steps succeeding.  Under the Python 3 runtime this package
requires, both steps raise `AttributeError`: encoding (color.py lines 59-61)
calls the removed `bytes.encode("hex")` on every construction, and decoding
(line 47) calls the removed `str.decode("hex")`. -/
theorem hex_roundtrip_broken :
    Color.fromRGB 255 0 0 255 = Except.error (PyError.attributeError "bytes" "encode")
    ∧ Color.fromName "ff0000" = Except.error (PyError.attributeError "str" "decode") := by
  constructor <;> rfl

/-- C3 counterexample: constructing a `Color` from the unrecognized name
`"notacolor"` raises an `AttributeError` (the legacy `str.decode("hex")` call),
which is not a lookup error, refuting the claim that an unrecognized name fails
with a lookup error. -/
theorem color_unknown_name_not_lookup_error :
    Color.fromName "notacolor" = Except.error (PyError.attributeError "str" "decode")
    ∧ raisedKind (Color.fromName "notacolor") ≠ some ErrKind.lookup := by
  constructor
  · rfl
  · decide

/-- C3 (amended): for every string that is not one of the twelve palette names,
construction constructs no value, failing with an `AttributeError` (the
Python-2-only hex codec attributes are missing under Python 3), not with a
lookup error. -/
theorem color_unknown_name_attribute_error (s : String)
    (h : paletteLookup s = none) :
    raisedKind (Color.fromName s) = some ErrKind.attribute := by
  unfold Color.fromName
  rw [h]
  by_cases hs : s = ""
  · subst hs
    rfl
  · simp only [ne_eq, hs, not_false_eq_true, if_true, ite_true]
    rfl

/-- C3 witness for the amended theorem. -/
theorem color_unknown_name_attribute_error_witness :
    raisedKind (Color.fromName "notacolor") = some ErrKind.attribute :=
  color_unknown_name_attribute_error "notacolor" (by decide)

/-- C4: the claim says the auto-computed DLL path reflects the
`use_legacy_dll` constructor argument.  The code disagrees: `__init__` calls
`load_dll` before assigning `self.use_legacy_dll` (led.py lines 71-72), so the
class default `True` is always in effect and the legacy LGHUB subpath is
computed even when `use_legacy_dll=False` is passed; the 64-bit program-files
variable is indeed preferred over the general one. -/
theorem init_ignores_use_legacy_dll_argument :
    initDllPath false Arch.bit64
        ⟨some "C:/Program Files", some "C:/Program Files (x86)"⟩ none
      = Except.ok "C:/Program Files/LGHUB/sdk_legacy_led_x64.dll"
    ∧ initDllPath false Arch.bit64
        ⟨some "C:/Program Files", some "C:/Program Files (x86)"⟩ none
      ≠ Except.ok (pathJoin "C:/Program Files" (subpathDll false Arch.bit64))
    ∧ resolveProgramFiles ⟨some "C:/Program Files", some "C:/Program Files (x86)"⟩
      = Except.ok "C:/Program Files" := by
  refine ⟨by decide, by decide, rfl⟩

/-- C5: calling `set_lighting_for_key` with a selector that is not one of the
four `KeyType` members returns `False` and performs no native invocation, for
every stub, key code and color arguments. -/
theorem set_lighting_for_key_unknown_selector
    (stub : KeyEntryPoint → Int → Int → Int → Int → Int)
    (key : Int) (tag : Nat) (red green blue : Int) :
    set_lighting_for_key stub key (Selector.other tag) red green blue
      = (false, []) :=
  rfl

/-- C6: the claim says constructing by a palette name yields the documented
channel triple.  The `if/elif` ladder does select the documented triples
(e.g. `"red"` ↦ (255, 0, 0), `"purple"` ↦ (128, 0, 255)), but `__init__` then
raises `AttributeError` building the hex view (color.py lines 59-61), so no
`Color` value is produced. -/
theorem named_color_construction_raises :
    paletteLookup "red" = some (255, 0, 0)
    ∧ paletteLookup "purple" = some (128, 0, 255)
    ∧ Color.fromName "red" = Except.error (PyError.attributeError "bytes" "encode")
    ∧ Color.fromName "purple" = Except.error (PyError.attributeError "bytes" "encode") := by
  refine ⟨rfl, rfl, rfl, rfl⟩

/-- C7: the claim says construction from in-range channels succeeds with
identity readback and alpha defaulting to 255.  The attributes are assigned,
but `__init__` then raises `AttributeError` computing `self.hex_code`
(color.py lines 59-61), so construction fails for every in-range input. -/
theorem rgb_construction_raises (r g b : Int)
    (h1 : 0 ≤ r) (h2 : r ≤ 255) (h3 : 0 ≤ g) (h4 : g ≤ 255)
    (h5 : 0 ≤ b) (h6 : b ≤ 255) :
    Color.fromRGB r g b 255
      = Except.error (PyError.attributeError "bytes" "encode") := by
  unfold Color.fromRGB colorFinishInit structPackBBB
  rw [if_pos ⟨h1, h2, h3, h4, h5, h6⟩]
  rfl

/-- C7 witness. -/
theorem rgb_construction_raises_witness :
    Color.fromRGB 12 34 56 255
      = Except.error (PyError.attributeError "bytes" "encode") :=
  rgb_construction_raises 12 34 56 (by decide) (by decide) (by decide)
    (by decide) (by decide) (by decide)

/-- C8: `rgb_percent` is a monotonic linear rescale per channel: 255 maps to
100, 0 maps to 0, and the per-channel map is monotonically non-decreasing on
[0, 255]. -/
theorem rgb_percent_linear_monotone :
    (∀ c : ColorState, ColorState.rgb_percent c = (pyPct c.red, pyPct c.green, pyPct c.blue))
    ∧ pyPct 255 = 100
    ∧ pyPct 0 = 0
    ∧ ∀ a b : Int, 0 ≤ a → a ≤ b → b ≤ 255 → pyPct a ≤ pyPct b := by
  refine ⟨fun _ => rfl, by decide, by decide, ?_⟩
  intro a b ha hab _hb
  unfold pyPct
  have ha100 : (0 : Int) ≤ a * 100 := by positivity
  have hab100 : a * 100 ≤ b * 100 := by nlinarith
  rw [Int.tdiv_eq_ediv ha100 (by norm_num),
    Int.tdiv_eq_ediv (le_trans ha100 hab100) (by norm_num)]
  exact Int.ediv_le_ediv (by norm_num) hab100

/-- C8 witness. -/
theorem rgb_percent_linear_monotone_witness : pyPct 100 ≤ pyPct 200 :=
  rgb_percent_linear_monotone.2.2.2 100 200 (by decide) (by decide) (by decide)

/-- C9: in a `with LEDService(...)` scope, `shutdown` (the native
`LogiLedShutdown` invocation of `__exit__`) runs exactly once per scope exit,
on every exit path — normal completion, early return, or a raised exception —
and the body's outcome propagates unchanged. -/
theorem shutdown_on_every_exit_path (s : LEDServiceState)
    (ops : List Event) (oc : Outcome)
    (h : ∀ e ∈ ops, Event.isShutdown e = false) :
    ((withLEDService s (ops, oc)).1.filter Event.isShutdown).length = 1
    ∧ (withLEDService s (ops, oc)).2 = oc := by
  refine ⟨?_, rfl⟩
  have hops : ops.filter Event.isShutdown = [] :=
    List.filter_eq_nil_iff.mpr (by intro a ha; simp [h a ha])
  simp [withLEDService, LEDService.enter, LEDService.start,
    LEDService.exitEvents, List.filter_append, hops, Event.isShutdown]

/-- C9 witness: a scope whose body raises still shuts down exactly once. -/
theorem shutdown_on_every_exit_path_witness :
    (((withLEDService ⟨⟨1, 1⟩, true⟩
        ([Event.bodyOp 0], Outcome.raised 7)).1.filter Event.isShutdown).length = 1)
    ∧ (withLEDService ⟨⟨1, 1⟩, true⟩
        ([Event.bodyOp 0], Outcome.raised 7)).2 = Outcome.raised 7 :=
  shutdown_on_every_exit_path ⟨⟨1, 1⟩, true⟩ [Event.bodyOp 0]
    (Outcome.raised 7) (by decide)

/-- C10: `__enter__` discards `start`'s boolean result and returns the service
handle, so even when the native `LogiLedInit` reports failure (result 0, i.e.
`start` returns `false`), scope entry succeeds, and the body's operations are
still attempted inside the scope. -/
theorem enter_discards_start_failure (s : LEDServiceState)
    (h : s.dll.logiLedInit = 0) (ops : List Event) (oc : Outcome) :
    LEDService.start s = false
    ∧ (LEDService.enter s).1 = s
    ∧ (withLEDService s (ops, oc)).1
        = Event.initCall 0 :: (ops ++ [Event.shutdownCall s.dll.logiLedShutdown]) := by
  refine ⟨?_, rfl, ?_⟩
  · simp [LEDService.start, pyBool, h]
  · simp [withLEDService, LEDService.enter, LEDService.exitEvents, h]

/-- C10 witness: a failing init (result 0) still yields successful entry and
an attempted body operation. -/
theorem enter_discards_start_failure_witness :
    LEDService.start ⟨⟨0, 1⟩, true⟩ = false
    ∧ (LEDService.enter ⟨⟨0, 1⟩, true⟩).1 = (⟨⟨0, 1⟩, true⟩ : LEDServiceState)
    ∧ (withLEDService ⟨⟨0, 1⟩, true⟩ ([Event.bodyOp 3], Outcome.normal)).1
        = Event.initCall 0 :: ([Event.bodyOp 3] ++ [Event.shutdownCall 1]) :=
  enter_discards_start_failure ⟨⟨0, 1⟩, true⟩ rfl [Event.bodyOp 3] Outcome.normal
